import Mathlib

/-!
# IBusProxy (src/ibusproxy.c)

A shallow embedding of `ibusproxy.c`: the private record of a proxy (service
name, object path, connection), its construction through the GObject property
system, its destruction, the two property accessors and the dispatch of the
"dbus-signal" signal.

Conventions of the embedding.

* A C pointer is an `Option`: `none` is `NULL`.  A `gchar *` is an
  `Option String`, an `IBusConnection *` is an `Option Nat` (the address of the
  connection object), a `DBusMessage *` is an `Option DBusMessage`.
* `World` carries what the functions of this file change outside the proxy:
  the reference count of every connection object, the number of live buffers
  obtained from `g_strdup`, and the numbers of critical messages and warnings
  GLib has logged.
* A failing `g_assert` aborts the process: `Outcome.abort` with the source line
  of the assertion.  A failing `g_return_if_fail` logs a critical message and
  returns.
* `gboolean` is `gint`: the return value of `ibus_proxy_handle_signal` is an
  `Int`.
-/

namespace Ibus

/-! ## Results and the effects outside the proxy -/

/-- Result of a C call that can hit a failing `g_assert`: a normal return, or
the abort of the process at the source line of the assertion. -/
inductive Outcome (α : Type) where
  | ok (a : α)
  | abort (line : Nat)

/-- Sequencing of calls: an abort ends the run. -/
def Outcome.bind {α β : Type} : Outcome α → (α → Outcome β) → Outcome β
  | Outcome.ok a, f => f a
  | Outcome.abort l, _ => Outcome.abort l

/-- Whether the call returned. -/
def Outcome.isOk {α : Type} : Outcome α → Bool
  | Outcome.ok _ => true
  | Outcome.abort _ => false

/-- State outside the proxy that the functions of this file read or change.
`ref_count a` is the reference count of the connection object at address `a`,
and `0` when no live connection object is there; `strings` counts the live
buffers obtained from `g_strdup`. -/
structure World where
  ref_count : Nat → Nat
  strings : Nat
  criticals : Nat
  warnings : Nat

/-- The message a failing `g_return_if_fail` logs. -/
def g_critical (w : World) : World :=
  { w with criticals := w.criticals + 1 }

/-- The message `G_OBJECT_WARN_INVALID_PROPERTY_ID` logs. -/
def g_warning (w : World) : World :=
  { w with warnings := w.warnings + 1 }

/-! ## The GLib calls the file makes -/

/-- GLib `g_strdup`: `NULL` for `NULL`, otherwise a fresh copy. -/
def g_strdup (s : Option String) (w : World) : Option String × World :=
  match s with
  | none => (none, w)
  | some t => (some t, { w with strings := w.strings + 1 })

/-- GLib `g_free`: nothing for `NULL`, otherwise the buffer is released. -/
def g_free (p : Option String) (w : World) : World :=
  match p with
  | none => w
  | some _ => { w with strings := w.strings - 1 }

/-- GObject `G_IS_OBJECT` on a connection pointer, which is also
`IBUS_IS_CONNECTION`: the pointer is not `NULL` and a live connection object is
at that address. -/
def IBUS_IS_CONNECTION (connection : Option Nat) (w : World) : Bool :=
  match connection with
  | none => false
  | some a => decide (0 < w.ref_count a)

/-- GObject `g_object_ref`: one more reference; a pointer that is not an object
only logs a critical message. -/
def g_object_ref (object : Option Nat) (w : World) : World :=
  match object with
  | none => g_critical w
  | some a =>
    if w.ref_count a = 0 then g_critical w
    else { w with ref_count := fun x => if x = a then w.ref_count a + 1 else w.ref_count x }

/-- GObject `g_object_unref`: one reference fewer, the object being finalized
when the count reaches zero; a pointer that is not an object (`NULL` among
them) only logs a critical message. -/
def g_object_unref (object : Option Nat) (w : World) : World :=
  match object with
  | none => g_critical w
  | some a =>
    if w.ref_count a = 0 then g_critical w
    else { w with ref_count := fun x => if x = a then w.ref_count a - 1 else w.ref_count x }

/-- A `GValue` as the property system hands it to the accessors: a string or an
object pointer. -/
inductive GValue where
  | string (s : Option String)
  | object (o : Option Nat)
  deriving DecidableEq, Repr

/-- GObject `g_value_get_string`: the string held; a value of another type logs
a critical message and gives `NULL`. -/
def g_value_get_string (value : GValue) (w : World) : Option String × World :=
  match value with
  | GValue.string s => (s, w)
  | GValue.object _ => (none, g_critical w)

/-- GObject `g_value_get_object`: the object held; a value of another type logs
a critical message and gives `NULL`. -/
def g_value_get_object (value : GValue) (w : World) : Option Nat × World :=
  match value with
  | GValue.object o => (o, w)
  | GValue.string _ => (none, g_critical w)

/-- GObject `g_value_set_string`: the value holds a copy of the string and the
copy it held before is released. -/
def g_value_set_string (value : GValue) (v_string : Option String) (w : World) :
    GValue × World :=
  match value with
  | GValue.string old =>
    let r := g_strdup v_string w
    (GValue.string r.1, g_free old r.2)
  | GValue.object _ => (value, g_critical w)

/-- GObject `g_value_set_object`: the value holds the object, with a reference
of its own, and the object it held before is released. -/
def g_value_set_object (value : GValue) (v_object : Option Nat) (w : World) :
    GValue × World :=
  match value with
  | GValue.object old =>
    let w1 := match v_object with
      | none => w
      | some a => g_object_ref (some a) w
    let w2 := match old with
      | none => w1
      | some b => g_object_unref (some b) w1
    (GValue.object v_object, w2)
  | GValue.string _ => (value, g_critical w)

/-! ## The data model -/

/-- Property identifier `PROP_0`. -/
def PROP_0 : Nat := 0
/-- Property identifier `PROP_NAME`. -/
def PROP_NAME : Nat := 1
/-- Property identifier `PROP_PATH`. -/
def PROP_PATH : Nat := 2
/-- Property identifier `PROP_CONNECTION`. -/
def PROP_CONNECTION : Nat := 3

/-- The record `struct _IBusProxyPrivate`. -/
structure IBusProxyPrivate where
  name : Option String
  path : Option String
  connection : Option Nat
  deriving DecidableEq, Repr

/-- The parent class `IBusObjectClass` (ibusobject.c, which this file only calls
through `_parent_class`), taken as a parameter: `σ` is the part of the instance
the parent owns, `init` its value in a fresh instance and `destroy` what the
parent's destroy handler does to it.  The parent has no access to the private
record of the proxy. -/
structure IBusObjectClass (σ : Type) where
  init : σ
  destroy : σ → σ

/-- An instance of `IBusProxy`: the parent's part and the private record. -/
structure IBusProxy (σ : Type) where
  parent : σ
  priv : IBusProxyPrivate

/-- A message of libdbus; the proxy never looks inside one. -/
abbrev DBusMessage := Nat

/-- What one run of a handler gives the emission: the `gboolean` it returns,
and whether it called `g_signal_stop_emission` (or
`g_signal_stop_emission_by_name`) on the emission while it ran. -/
structure Reply where
  ret : Bool
  stop : Bool
  deriving DecidableEq, Repr

/-- A callback of the "dbus-signal" signal, of C type
`gboolean (*) (IBusProxy *, DBusMessage *)`; it may stop the emission. -/
abbrev Callback (σ : Type) := IBusProxy σ → DBusMessage → Reply

/-- A C function that returns its `gboolean` and leaves the emission alone, as
a callback. -/
def plain {σ : Type} (f : IBusProxy σ → DBusMessage → Bool) : Callback σ :=
  fun proxy message => { ret := f proxy message, stop := false }

/-- The class record `IBusProxyClass`: the slot `dbus_signal` of the class
handler, which a subclass may overwrite. -/
structure IBusProxyClass (σ : Type) where
  dbus_signal : Option (Callback σ)

/-! ## Signal emission (GObject)

`g_signal_new` and `g_signal_emit` belong to GObject.  Their contract, as the
GObject reference manual gives it: the handlers connected with
`g_signal_connect` run in the order of connection, the class handler of a
`G_SIGNAL_RUN_FIRST` signal runs before them and that of a `G_SIGNAL_RUN_LAST`
signal after them, and the handlers connected with `g_signal_connect_after` run
last; each return value goes through the accumulator, and without an
accumulator the emission returns what the last handler run returned.  A
handler that calls `g_signal_stop_emission` ends the emission when it returns:
the handlers after it, the class handler of a `G_SIGNAL_RUN_LAST` signal among
them, do not run. -/

/-- The emission stage of the class handler (`GSignalFlags`). -/
inductive GSignalFlags where
  | G_SIGNAL_RUN_FIRST
  | G_SIGNAL_RUN_LAST
  deriving DecidableEq, Repr

/-- A `GSignalAccumulator` over `gboolean`: from the value accumulated so far
and the return value of the handler just run, whether the emission goes on and
the new accumulated value. -/
abbrev GSignalAccumulator := Bool → Bool → Bool × Bool

/-- What `g_signal_new` registers, as far as emission goes. -/
structure SignalNode where
  flags : GSignalFlags
  accumulator : Option GSignalAccumulator

/-- A handler connected to the signal of one instance: `after` tells
`g_signal_connect_after` from `g_signal_connect`. -/
structure SignalHandler (σ : Type) where
  after : Bool
  callback : Callback σ

/-- Names of the closures an emission runs, for the record of what ran:
the handler at a position of the connection list, or the class handler. -/
inductive ClosureId where
  | handler (index : Nat)
  | class_handler
  deriving DecidableEq, Repr

/-- The connected handlers with the given `after` flag, in connection order,
each with its position in the connection list; `i` is the position of the head
of the list. -/
def connected_from {σ : Type} (after : Bool) :
    Nat → List (SignalHandler σ) → List (ClosureId × Callback σ)
  | _, [] => []
  | i, h :: rest =>
    if h.after = after then (ClosureId.handler i, h.callback) :: connected_from after (i + 1) rest
    else connected_from after (i + 1) rest

/-- The connected handlers with the given `after` flag, positions from 0. -/
def connected {σ : Type} (after : Bool) (handlers : List (SignalHandler σ)) :
    List (ClosureId × Callback σ) :=
  connected_from after 0 handlers

/-- The closures of one emission, in the order GObject runs them. -/
def emission_closures {σ : Type} (node : SignalNode) (class_closure : Option (Callback σ))
    (handlers : List (SignalHandler σ)) : List (ClosureId × Callback σ) :=
  let cls : List (ClosureId × Callback σ) :=
    match class_closure with
    | none => []
    | some f => [(ClosureId.class_handler, f)]
  match node.flags with
  | GSignalFlags.G_SIGNAL_RUN_FIRST => cls ++ connected false handlers ++ connected true handlers
  | GSignalFlags.G_SIGNAL_RUN_LAST => connected false handlers ++ cls ++ connected true handlers

/-- Runs the closures in order from the return value `ret` so far.  Without an
accumulator the return value of each closure run replaces `ret`; with one, the
accumulator combines the values and can end the emission.  A closure that
stops the emission is the last to run.  The result is the final return value
and the closures run, in order, each with what it returned. -/
def run_closures {σ : Type} (accumulator : Option GSignalAccumulator) (proxy : IBusProxy σ)
    (message : DBusMessage) :
    List (ClosureId × Callback σ) → Bool → List (ClosureId × Bool) → Bool × List (ClosureId × Bool)
  | [], ret, ran => (ret, ran)
  | c :: rest, ret, ran =>
    let r := c.2 proxy message
    match accumulator with
    | none =>
      if r.stop then (r.ret, ran ++ [(c.1, r.ret)])
      else run_closures accumulator proxy message rest r.ret (ran ++ [(c.1, r.ret)])
    | some acc =>
      if (acc ret r.ret).1 && !r.stop then
        run_closures accumulator proxy message rest (acc ret r.ret).2 (ran ++ [(c.1, r.ret)])
      else ((acc ret r.ret).2, ran ++ [(c.1, r.ret)])

/-- GObject `g_signal_emit` for a signal of return type `G_TYPE_BOOLEAN` with one
pointer argument: the return value starts as `FALSE`. -/
def g_signal_emit {σ : Type} (node : SignalNode) (class_closure : Option (Callback σ))
    (handlers : List (SignalHandler σ)) (proxy : IBusProxy σ) (message : DBusMessage) :
    Bool × List (ClosureId × Bool) :=
  run_closures node.accumulator proxy message
    (emission_closures node class_closure handlers) false []

/-! ## The functions of ibusproxy.c -/

/-- The constant `FALSE` of GLib. -/
def FALSE : Int := 0

/-- The enumerator `DBUS_HANDLER_RESULT_HANDLED` of libdbus (dbus-shared.h): the
first of `DBusHandlerResult`, so 0. -/
def DBUS_HANDLER_RESULT_HANDLED : Int := 0

/-- The enumerator `DBUS_HANDLER_RESULT_NOT_YET_HANDLED` of libdbus
(dbus-shared.h): the second of `DBusHandlerResult`, so 1. -/
def DBUS_HANDLER_RESULT_NOT_YET_HANDLED : Int := 1

/-- The class handler `ibus_proxy_dbus_signal`. -/
def ibus_proxy_dbus_signal {σ : Type} (_proxy : IBusProxy σ) (_message : DBusMessage) : Bool :=
  false

/-- The signal `_signals[DBUS_SIGNAL]` as `ibus_proxy_class_init` registers it:
`G_SIGNAL_RUN_LAST`, and `NULL` for the accumulator. -/
def dbus_signal_node : SignalNode :=
  { flags := GSignalFlags.G_SIGNAL_RUN_LAST, accumulator := none }

/-- The class record after `ibus_proxy_class_init`:
`klass->dbus_signal = ibus_proxy_dbus_signal`, a function that returns and does
not touch the emission. -/
def ibus_proxy_class_init (σ : Type) : IBusProxyClass σ :=
  { dbus_signal := some (plain ibus_proxy_dbus_signal) }

/-- The instance initializer `ibus_proxy_init`, after the parent's: the three
fields are `NULL`. -/
def ibus_proxy_init {σ : Type} (parent_class : IBusObjectClass σ) : IBusProxy σ :=
  { parent := parent_class.init, priv := { name := none, path := none, connection := none } }

/-- The property writer `ibus_proxy_set_property`. -/
def ibus_proxy_set_property {σ : Type} (proxy : IBusProxy σ) (prop_id : Nat) (value : GValue)
    (w : World) : Outcome (IBusProxy σ × World) :=
  if prop_id = PROP_NAME then
    if proxy.priv.name ≠ none then Outcome.abort 228
    else
      let v := g_value_get_string value w
      let d := g_strdup v.1 v.2
      Outcome.ok ({ proxy with priv := { proxy.priv with name := d.1 } }, d.2)
  else if prop_id = PROP_PATH then
    if proxy.priv.path ≠ none then Outcome.abort 232
    else
      let v := g_value_get_string value w
      let d := g_strdup v.1 v.2
      Outcome.ok ({ proxy with priv := { proxy.priv with path := d.1 } }, d.2)
  else if prop_id = PROP_CONNECTION then
    if proxy.priv.connection ≠ none then Outcome.abort 236
    else
      let v := g_value_get_object value w
      Outcome.ok ({ proxy with priv := { proxy.priv with connection := v.1 } },
        g_object_ref v.1 v.2)
  else Outcome.ok (proxy, g_warning w)

/-- The property reader `ibus_proxy_get_property`, filling `value`. -/
def ibus_proxy_get_property {σ : Type} (proxy : IBusProxy σ) (prop_id : Nat) (value : GValue)
    (w : World) : GValue × World :=
  if prop_id = PROP_NAME then g_value_set_string value proxy.priv.name w
  else if prop_id = PROP_PATH then g_value_set_string value proxy.priv.path w
  else if prop_id = PROP_CONNECTION then g_value_set_object value proxy.priv.connection w
  else (value, g_warning w)

/-- GObject's base constructor, to which `ibus_proxy_constructor` chains up: the
instance is created and initialized, then every construct property is written
through `set_property`, in the order given. -/
def g_object_constructor {σ : Type} (parent_class : IBusObjectClass σ) :
    List (Nat × GValue) → IBusProxy σ × World → Outcome (IBusProxy σ × World)
  | [], s => Outcome.ok s
  | p :: rest, s =>
    (ibus_proxy_set_property s.1 p.1 p.2 s.2).bind (g_object_constructor parent_class rest)

/-- The constructor `ibus_proxy_constructor`: the parent's constructor and two
debug messages. -/
def ibus_proxy_constructor {σ : Type} (parent_class : IBusObjectClass σ)
    (construct_params : List (Nat × GValue)) (w : World) : Outcome (IBusProxy σ × World) :=
  g_object_constructor parent_class construct_params (ibus_proxy_init parent_class, w)

/-- The factory `ibus_proxy_new`: three assertions, then `g_object_new` with
the three construct properties. -/
def ibus_proxy_new {σ : Type} (parent_class : IBusObjectClass σ) (name path : Option String)
    (connection : Option Nat) (w : World) : Outcome (IBusProxy σ × World) :=
  if name = none then Outcome.abort 102
  else if path = none then Outcome.abort 103
  else if IBUS_IS_CONNECTION connection w = false then Outcome.abort 104
  else
    ibus_proxy_constructor parent_class
      [(PROP_NAME, GValue.string name), (PROP_PATH, GValue.string path),
       (PROP_CONNECTION, GValue.object connection)] w

/-- The destroy handler `ibus_proxy_destroy`. -/
def ibus_proxy_destroy {σ : Type} (parent_class : IBusObjectClass σ) (proxy : IBusProxy σ)
    (w : World) : IBusProxy σ × World :=
  let w1 := g_free proxy.priv.name w
  let w2 := g_free proxy.priv.path w1
  let w3 := g_object_unref proxy.priv.connection w2
  ({ parent := parent_class.destroy proxy.parent,
     priv := { name := none, path := none, connection := none } }, w3)

/-- What one call of `ibus_proxy_handle_signal` did: the integer returned,
whether `g_signal_emit` was called, the closures the emission ran, in order,
each with what it returned, and the world afterwards. -/
structure HandleSignal where
  ret : Int
  emitted : Bool
  trace : List (ClosureId × Bool)
  world : World

/-- The closures the emission ran, in order. -/
def HandleSignal.ran (h : HandleSignal) : List ClosureId :=
  h.trace.map Prod.fst

/-- The dispatch entry point `ibus_proxy_handle_signal`; `klass` is the class of
the proxy and `handlers` the handlers connected to its "dbus-signal" signal. -/
def ibus_proxy_handle_signal {σ : Type} (klass : IBusProxyClass σ)
    (handlers : List (SignalHandler σ)) (proxy : IBusProxy σ) (message : Option DBusMessage)
    (w : World) : HandleSignal :=
  match message with
  | none => { ret := FALSE, emitted := false, trace := [], world := g_critical w }
  | some m =>
    let e := g_signal_emit dbus_signal_node klass.dbus_signal handlers proxy m
    { ret := if e.1 then DBUS_HANDLER_RESULT_HANDLED else DBUS_HANDLER_RESULT_NOT_YET_HANDLED,
      emitted := true, trace := e.2, world := w }

/-! ## Sequences of calls on a live proxy -/

/-- A call on a proxy that is not its destruction. -/
inductive Call (σ : Type) where
  | set_property (prop_id : Nat) (value : GValue)
  | handle_signal (klass : IBusProxyClass σ) (handlers : List (SignalHandler σ))
      (message : Option DBusMessage)

/-- One call, on the proxy and the world. -/
def step {σ : Type} (c : Call σ) (s : IBusProxy σ × World) : Outcome (IBusProxy σ × World) :=
  match c with
  | Call.set_property prop_id value => ibus_proxy_set_property s.1 prop_id value s.2
  | Call.handle_signal klass handlers message =>
    Outcome.ok (s.1, (ibus_proxy_handle_signal klass handlers s.1 message s.2).world)

/-- A sequence of calls, from left to right; an abort ends it. -/
def run_calls {σ : Type} : List (Call σ) → IBusProxy σ × World → Outcome (IBusProxy σ × World)
  | [], s => Outcome.ok s
  | c :: rest, s => (step c s).bind (run_calls rest)

/-- An observer connected with `g_signal_connect`. -/
def observer {σ : Type} (f : Callback σ) : SignalHandler σ :=
  { after := false, callback := f }

/-! ## Values for the concrete statements -/

/-- A world with one live connection, at address 7, held once. -/
def world0 : World :=
  { ref_count := fun a => if a = 7 then 1 else 0, strings := 0, criticals := 0, warnings := 0 }

/-- The world `world0` after a proxy over the connection at address 7 has been
constructed: one more reference on the connection, two strings copied. -/
def world1 : World :=
  { ref_count := fun x => if x = 7 then world0.ref_count 7 + 1 else world0.ref_count x,
    strings := 2, criticals := 0, warnings := 0 }

/-- The world `world1` after one critical message and one warning. -/
def world2 : World :=
  { ref_count := fun x => if x = 7 then world0.ref_count 7 + 1 else world0.ref_count x,
    strings := 2, criticals := 1, warnings := 1 }

/-- A parent class with nothing to keep. -/
def unit_parent : IBusObjectClass Unit :=
  { init := (), destroy := fun _ => () }

/-- A callback that consumes every message and lets the emission go on. -/
def always_true : Callback Unit := fun _ _ => { ret := true, stop := false }

/-- A callback that consumes every message and stops the emission. -/
def stop_true : Callback Unit := fun _ _ => { ret := true, stop := true }

/-- A callback that declines every message and lets the emission go on. -/
def always_false : Callback Unit := fun _ _ => { ret := false, stop := false }

/-- A proxy in the state construction leaves it in. -/
def proxy0 : IBusProxy Unit :=
  { parent := (),
    priv := { name := some "com.example.Service", path := some "/com/example/Object",
              connection := some 7 } }

/-- A proxy in the state destruction leaves it in. -/
def destroyed0 : IBusProxy Unit :=
  { parent := (), priv := { name := none, path := none, connection := none } }

/-! ## Lemmas on the emission -/

/-- Without an accumulator the emission returns what the last closure it ran
returned (the value it started from when none ran), and every closure in its
record is one of the closures it was given, with what that closure returned. -/
theorem run_closures_none_last {σ : Type} (proxy : IBusProxy σ) (message : DBusMessage)
    (cs : List (ClosureId × Callback σ)) (ret : Bool) (ran : List (ClosureId × Bool)) :
    ∃ t : List (ClosureId × Bool),
      (run_closures none proxy message cs ret ran).2 = ran ++ t ∧
      (run_closures none proxy message cs ret ran).1 = (t.getLast?.map Prod.snd).getD ret ∧
      ∀ e ∈ t, ∃ c ∈ cs, e = (c.1, (c.2 proxy message).ret) := by
  induction cs generalizing ret ran with
  | nil => exact ⟨[], by simp [run_closures]⟩
  | cons c rest ih =>
    by_cases hs : (c.2 proxy message).stop = true
    · refine ⟨[(c.1, (c.2 proxy message).ret)], ?_, ?_, ?_⟩
      · simp [run_closures, hs]
      · simp [run_closures, hs]
      · intro e he
        exact ⟨c, by simp, by simpa using he⟩
    · obtain ⟨t, h1, h2, h3⟩ := ih (c.2 proxy message).ret (ran ++ [(c.1, (c.2 proxy message).ret)])
      refine ⟨(c.1, (c.2 proxy message).ret) :: t, ?_, ?_, ?_⟩
      · simp [run_closures, hs, h1]
      · simp only [run_closures, hs, Bool.false_eq_true, if_false, h2]
        cases t with
        | nil => simp
        | cons d more =>
          have h := List.getLast?_eq_getLast (d :: more) (List.cons_ne_nil d more)
          rw [List.getLast?_cons_cons, h]
          simp
      · intro e he
        rcases List.mem_cons.mp he with h | h
        · exact ⟨c, by simp, h⟩
        · obtain ⟨c2, hc2, he2⟩ := h3 e h
          exact ⟨c2, List.mem_cons_of_mem _ hc2, he2⟩

/-- The return value of `ibus_proxy_handle_signal` on a message, from the last
closure the emission ran. -/
theorem handle_signal_ret {σ : Type} (klass : IBusProxyClass σ)
    (handlers : List (SignalHandler σ)) (proxy : IBusProxy σ) (m : DBusMessage) (w : World) :
    (ibus_proxy_handle_signal klass handlers proxy (some m) w).ret =
      if ((ibus_proxy_handle_signal klass handlers proxy (some m) w).trace.getLast?.map
            Prod.snd).getD false
      then DBUS_HANDLER_RESULT_HANDLED else DBUS_HANDLER_RESULT_NOT_YET_HANDLED := by
  obtain ⟨t, h1, h2, _⟩ := run_closures_none_last proxy m
    (emission_closures dbus_signal_node klass.dbus_signal handlers) false []
  simp only [List.nil_append] at h1
  have hacc : dbus_signal_node.accumulator = none := rfl
  simp only [ibus_proxy_handle_signal, g_signal_emit, hacc, h1, h2]

/-- Every closure of the connected handlers is named by a position of the
connection list. -/
theorem connected_from_ids {σ : Type} (after : Bool) (hs : List (SignalHandler σ)) (i : Nat)
    (c : ClosureId × Callback σ) (hc : c ∈ connected_from after i hs) :
    ∃ k, c.1 = ClosureId.handler k := by
  induction hs generalizing i with
  | nil => simp [connected_from] at hc
  | cons h rest ih =>
    simp only [connected_from] at hc
    split at hc
    · rcases List.mem_cons.mp hc with h1 | h1
      · exact ⟨i, by rw [h1]⟩
      · exact ih (i + 1) h1
    · exact ih (i + 1) hc

/-- In an emission of "dbus-signal" for the class of `IBusProxy`, the closure
named `class_handler` is `ibus_proxy_dbus_signal`. -/
theorem emission_closures_class {σ : Type} (handlers : List (SignalHandler σ))
    (c : ClosureId × Callback σ)
    (hc : c ∈ emission_closures dbus_signal_node (ibus_proxy_class_init σ).dbus_signal handlers)
    (hid : c.1 = ClosureId.class_handler) : c.2 = plain ibus_proxy_dbus_signal := by
  simp only [emission_closures, dbus_signal_node, ibus_proxy_class_init, connected,
    List.mem_append, List.mem_singleton] at hc
  rcases hc with (h | h) | h
  · obtain ⟨k, hk⟩ := connected_from_ids false handlers 0 c h
    rw [hid] at hk
    cases hk
  · rw [h]
  · obtain ⟨k, hk⟩ := connected_from_ids true handlers 0 c h
    rw [hid] at hk
    cases hk

/-- With the class of `IBusProxy`, an emission whose last closure run is the
class handler gives `DBUS_HANDLER_RESULT_NOT_YET_HANDLED`. -/
theorem class_handler_last {σ : Type} (handlers : List (SignalHandler σ)) (proxy : IBusProxy σ)
    (m : DBusMessage) (w : World)
    (h : (ibus_proxy_handle_signal (ibus_proxy_class_init σ) handlers proxy (some m) w).ran.getLast?
      = some ClosureId.class_handler) :
    (ibus_proxy_handle_signal (ibus_proxy_class_init σ) handlers proxy (some m) w).ret =
      DBUS_HANDLER_RESULT_NOT_YET_HANDLED := by
  rw [handle_signal_ret]
  obtain ⟨t, h1, _, h3⟩ := run_closures_none_last proxy m
    (emission_closures dbus_signal_node (ibus_proxy_class_init σ).dbus_signal handlers) false []
  have ht : (ibus_proxy_handle_signal (ibus_proxy_class_init σ) handlers proxy (some m) w).trace
      = t := by
    simp only [ibus_proxy_handle_signal, g_signal_emit, dbus_signal_node] at *
    rw [h1]
    simp
  simp only [HandleSignal.ran, ht, List.getLast?_map] at h
  rw [ht]
  cases hl : t.getLast? with
  | none => simp
  | some e =>
    rw [hl] at h
    simp only [Option.map_some', Option.some.injEq] at h
    obtain ⟨c, hc, he⟩ := h3 e (List.mem_of_getLast?_eq_some hl)
    have hid : c.1 = ClosureId.class_handler := by
      rw [he] at h
      exact h
    have hf := emission_closures_class handlers c hc hid
    simp [he, hf, plain, ibus_proxy_dbus_signal]

/-- Observers connected with `g_signal_connect` leave the group of the
handlers that run after the class handler empty. -/
theorem connected_from_true_observers {σ : Type} (fs : List (Callback σ)) (i : Nat) :
    connected_from true i (fs.map observer) = [] := by
  induction fs generalizing i with
  | nil => simp [connected_from]
  | cons f rest ih => simp [connected_from, observer, ih]

/-- The closures an emission of "dbus-signal" runs when only observers are
connected and the class handler is the one of `IBusProxy`: the observers, then
the class handler. -/
theorem emission_closures_observers {σ : Type} (fs : List (Callback σ)) :
    emission_closures dbus_signal_node (ibus_proxy_class_init σ).dbus_signal (fs.map observer) =
      connected_from false 0 (fs.map observer) ++
        [(ClosureId.class_handler, plain ibus_proxy_dbus_signal)] := by
  simp [emission_closures, dbus_signal_node, ibus_proxy_class_init, connected,
    connected_from_true_observers]

/-- Observers that do not stop the emission all run, in order, and the
emission goes on with the closures after them. -/
theorem run_observers_no_stop {σ : Type} (proxy : IBusProxy σ) (m : DBusMessage)
    (fs : List (Callback σ)) (i : Nat) (rest : List (ClosureId × Callback σ)) (ret : Bool)
    (ran : List (ClosureId × Bool)) (h : ∀ f ∈ fs, (f proxy m).stop = false) :
    ∃ (t : List (ClosureId × Bool)) (r : Bool),
      t.map Prod.fst = (List.range' i fs.length).map ClosureId.handler ∧
      run_closures none proxy m (connected_from false i (fs.map observer) ++ rest) ret ran =
        run_closures none proxy m rest r (ran ++ t) := by
  induction fs generalizing i ret ran with
  | nil => exact ⟨[], ret, by simp [connected_from]⟩
  | cons f more ih =>
    have hf : (f proxy m).stop = false := h f (by simp)
    obtain ⟨t, r, h1, h2⟩ := ih (i + 1) (f proxy m).ret
      (ran ++ [(ClosureId.handler i, (f proxy m).ret)]) (fun g hg => h g (List.mem_cons_of_mem _ hg))
    refine ⟨(ClosureId.handler i, (f proxy m).ret) :: t, r, ?_, ?_⟩
    · simp [h1, List.range'_succ]
    · simp only [List.map_cons, connected_from, observer, if_true, List.cons_append,
        run_closures, hf, Bool.false_eq_true, if_false]
      simpa using h2

/-- With the class of `IBusProxy` and observers none of which stops the
emission, every observer runs, the class handler runs last, and the result is
`DBUS_HANDLER_RESULT_NOT_YET_HANDLED`. -/
theorem handle_signal_observers_no_stop {σ : Type} (fs : List (Callback σ))
    (proxy : IBusProxy σ) (m : DBusMessage) (w : World)
    (h : ∀ f ∈ fs, (f proxy m).stop = false) :
    (ibus_proxy_handle_signal (ibus_proxy_class_init σ) (fs.map observer) proxy (some m) w).ran =
        (List.range fs.length).map ClosureId.handler ++ [ClosureId.class_handler] ∧
    (ibus_proxy_handle_signal (ibus_proxy_class_init σ) (fs.map observer) proxy (some m) w).ret =
        DBUS_HANDLER_RESULT_NOT_YET_HANDLED := by
  obtain ⟨t, r, h1, h2⟩ := run_observers_no_stop proxy m fs 0
    [(ClosureId.class_handler, plain ibus_proxy_dbus_signal)] false [] h
  have hacc : dbus_signal_node.accumulator = none := rfl
  simp only [ibus_proxy_handle_signal, g_signal_emit, HandleSignal.ran, hacc,
    emission_closures_observers, h2]
  simp [run_closures, plain, ibus_proxy_dbus_signal, h1, List.range_eq_range']

/-- Without an accumulator an emission either runs every closure, none of
which stops it, or ends with the first closure that stops it. -/
theorem run_closures_none_cases {σ : Type} (proxy : IBusProxy σ) (message : DBusMessage)
    (cs : List (ClosureId × Callback σ)) (ret : Bool) (ran : List (ClosureId × Bool)) :
    ((∀ c ∈ cs, (c.2 proxy message).stop = false) ∧
      (run_closures none proxy message cs ret ran).2 =
        ran ++ cs.map (fun c => (c.1, (c.2 proxy message).ret))) ∨
    (∃ (pre : List (ClosureId × Callback σ)) (c : ClosureId × Callback σ)
        (post : List (ClosureId × Callback σ)),
      cs = pre ++ c :: post ∧ (c.2 proxy message).stop = true ∧
      (run_closures none proxy message cs ret ran).2 =
        ran ++ (pre ++ [c]).map (fun c => (c.1, (c.2 proxy message).ret))) := by
  induction cs generalizing ret ran with
  | nil => exact Or.inl ⟨by simp, by simp [run_closures]⟩
  | cons c rest ih =>
    by_cases hs : (c.2 proxy message).stop = true
    · exact Or.inr ⟨[], c, rest, rfl, hs, by simp [run_closures, hs]⟩
    · have hs2 : (c.2 proxy message).stop = false := by simpa using hs
      rcases ih (c.2 proxy message).ret (ran ++ [(c.1, (c.2 proxy message).ret)]) with h | h
      · refine Or.inl ⟨?_, ?_⟩
        · intro d hd
          rcases List.mem_cons.mp hd with h1 | h1
          · rw [h1]
            exact hs2
          · exact h.1 d h1
        · simp [run_closures, hs2, h.2]
      · obtain ⟨pre, d, post, h1, h2, h3⟩ := h
        refine Or.inr ⟨c :: pre, d, post, by simp [h1], h2, ?_⟩
        simp [run_closures, hs2, h3]

/-- A closure of the connected observers carries one of the observers. -/
theorem connected_from_observers_mem {σ : Type} (after : Bool) (fs : List (Callback σ)) (i : Nat)
    (c : ClosureId × Callback σ) (hc : c ∈ connected_from after i (fs.map observer)) :
    c.2 ∈ fs := by
  induction fs generalizing i with
  | nil => simp [connected_from] at hc
  | cons f rest ih =>
    simp only [List.map_cons, connected_from] at hc
    split at hc
    · rcases List.mem_cons.mp hc with h1 | h1
      · rw [h1]
        simp [observer]
      · exact List.mem_cons_of_mem _ (ih (i + 1) h1)
    · exact List.mem_cons_of_mem _ (ih (i + 1) hc)

/-- With the class of `IBusProxy` and only observers connected: when the last
closure the emission ran is an observer, the class handler has not run, and
that observer stopped the emission. -/
theorem observer_last {σ : Type} (fs : List (Callback σ)) (proxy : IBusProxy σ)
    (m : DBusMessage) (w : World) (k : Nat) (b : Bool)
    (h : (ibus_proxy_handle_signal (ibus_proxy_class_init σ) (fs.map observer) proxy
        (some m) w).trace.getLast? = some (ClosureId.handler k, b)) :
    ClosureId.class_handler ∉
      (ibus_proxy_handle_signal (ibus_proxy_class_init σ) (fs.map observer) proxy (some m) w).ran ∧
    ∃ f ∈ fs, (f proxy m).stop = true ∧ (f proxy m).ret = b := by
  have hacc : dbus_signal_node.accumulator = none := rfl
  simp only [ibus_proxy_handle_signal, g_signal_emit, HandleSignal.ran, hacc,
    emission_closures_observers] at h ⊢
  rcases run_closures_none_cases proxy m
    (connected_from false 0 (fs.map observer) ++
      [(ClosureId.class_handler, plain ibus_proxy_dbus_signal)]) false [] with hc | hc
  · rw [hc.2] at h
    simp [List.getLast?_append, plain] at h
  · obtain ⟨pre, c, post, h1, h2, h3⟩ := hc
    rw [h3] at h ⊢
    rcases List.eq_nil_or_concat post with hp | ⟨post2, d, hp⟩
    · subst hp
      have h4 := congrArg List.getLast? h1
      have h5 : c = (ClosureId.class_handler, plain ibus_proxy_dbus_signal) := by
        simpa [List.getLast?_append] using h4.symm
      rw [h5] at h2
      simp [plain] at h2
    · subst hp
      have h4 : pre ++ c :: post2 = connected_from false 0 (fs.map observer) := by
        have h5 : (pre ++ c :: post2) ++ [d] = connected_from false 0 (fs.map observer) ++
            [(ClosureId.class_handler, plain ibus_proxy_dbus_signal)] := by
          rw [h1]
          simp
        exact (List.append_inj' h5 rfl).1
      have hmem : ∀ e ∈ pre ++ [c], e ∈ connected_from false 0 (fs.map observer) := by
        intro e he
        rw [← h4]
        rcases List.mem_append.mp he with he | he
        · exact List.mem_append_left _ he
        · rw [List.mem_singleton.mp he]
          simp
      constructor
      · simp only [List.nil_append, List.map_map, List.mem_map, Function.comp, not_exists,
          not_and]
        intro e he heq
        obtain ⟨j, hj⟩ := connected_from_ids false (fs.map observer) 0 e (hmem e he)
        rw [heq] at hj
        cases hj
      · refine ⟨c.2, connected_from_observers_mem false fs 0 c (hmem c (by simp)), h2, ?_⟩
        have h6 : (c.1, (c.2 proxy m).ret) = (ClosureId.handler k, b) := by
          simpa [List.getLast?_append] using h
        exact (Prod.mk.inj h6).2

/-! ## Lemmas on construction and on calls -/

/-- Construction with a name and a path that are not `NULL` and a live
connection returns, with the three fields stored, one more reference on the
connection and two strings copied. -/
theorem ibus_proxy_new_ok {σ : Type} (parent_class : IBusObjectClass σ) (name path : String)
    (c : Nat) (w : World) (hc : IBUS_IS_CONNECTION (some c) w = true) :
    ibus_proxy_new parent_class (some name) (some path) (some c) w =
      Outcome.ok
        ({ parent := parent_class.init,
           priv := { name := some name, path := some path, connection := some c } },
         { w with
           ref_count := fun x => if x = c then w.ref_count c + 1 else w.ref_count x,
           strings := w.strings + 1 + 1 }) := by
  have h0 : w.ref_count c ≠ 0 := by
    simp [IBUS_IS_CONNECTION] at hc
    omega
  simp [ibus_proxy_new, hc, ibus_proxy_constructor, g_object_constructor, ibus_proxy_init,
    ibus_proxy_set_property, Outcome.bind, PROP_NAME, PROP_PATH, PROP_CONNECTION,
    g_value_get_string, g_value_get_object, g_strdup, g_object_ref, h0]

/-- A call that returns, on a proxy whose three fields are set, leaves the
private record as it is. -/
theorem step_keeps_priv {σ : Type} (c : Call σ) (s t : IBusProxy σ × World)
    (hn : s.1.priv.name ≠ none) (hp : s.1.priv.path ≠ none) (hx : s.1.priv.connection ≠ none)
    (h : step c s = Outcome.ok t) : t.1.priv = s.1.priv := by
  cases c with
  | set_property prop_id value =>
    simp only [step, ibus_proxy_set_property] at h
    by_cases h1 : prop_id = PROP_NAME
    · simp [h1, hn] at h
    · by_cases h2 : prop_id = PROP_PATH
      · simp [h2, PROP_NAME, PROP_PATH, hp] at h
      · by_cases h3 : prop_id = PROP_CONNECTION
        · simp [h3, PROP_NAME, PROP_PATH, PROP_CONNECTION, hx] at h
        · simp only [h1, h2, h3, if_false] at h
          cases h
          rfl
  | handle_signal klass handlers message =>
    simp only [step] at h
    cases h
    rfl

/-- A sequence of calls that returns, on a proxy whose three fields are set,
leaves the private record as it is. -/
theorem run_calls_keeps_priv {σ : Type} (calls : List (Call σ)) (s t : IBusProxy σ × World)
    (hn : s.1.priv.name ≠ none) (hp : s.1.priv.path ≠ none) (hx : s.1.priv.connection ≠ none)
    (h : run_calls calls s = Outcome.ok t) : t.1.priv = s.1.priv := by
  induction calls generalizing s with
  | nil =>
    simp only [run_calls] at h
    cases h
    rfl
  | cons c rest ih =>
    simp only [run_calls] at h
    cases hs : step c s with
    | abort l => simp [hs, Outcome.bind] at h
    | ok u =>
      rw [hs] at h
      simp only [Outcome.bind] at h
      have hu := step_keeps_priv c s u hn hp hx hs
      have := ih u (by rw [hu]; exact hn) (by rw [hu]; exact hp) (by rw [hu]; exact hx) h
      rw [this, hu]

/-! ## Signal dispatch -/

/-- Claim C1, counterexample: with the class handler of `IBusProxy` and one
observer that returns true on the message, `ibus_proxy_handle_signal` returns
`DBUS_HANDLER_RESULT_NOT_YET_HANDLED` and not `DBUS_HANDLER_RESULT_HANDLED`: the
observer runs, then the class handler runs and its `FALSE` is what the emission
returns. -/
theorem observer_true_yet_not_handled :
    (∃ o ∈ [observer always_true], (o.callback proxy0 5).ret = true) ∧
    (ibus_proxy_handle_signal (ibus_proxy_class_init Unit) [observer always_true] proxy0
        (some 5) world0).ran = [ClosureId.handler 0, ClosureId.class_handler] ∧
    (ibus_proxy_handle_signal (ibus_proxy_class_init Unit) [observer always_true] proxy0
        (some 5) world0).ret = DBUS_HANDLER_RESULT_NOT_YET_HANDLED ∧
    (ibus_proxy_handle_signal (ibus_proxy_class_init Unit) [observer always_true] proxy0
        (some 5) world0).ret ≠ DBUS_HANDLER_RESULT_HANDLED := by
  refine ⟨⟨observer always_true, by simp, rfl⟩, by decide, by decide, by decide⟩

/-- Claim C1, amended: for every proxy, class, list of connected handlers and
message, `ibus_proxy_handle_signal` returns `DBUS_HANDLER_RESULT_HANDLED` if and
only if the last closure the emission ran returned true, and
`DBUS_HANDLER_RESULT_NOT_YET_HANDLED` if and only if it did not.  With the class
handler of `IBusProxy`, whenever the class handler is the last closure run the
result is `DBUS_HANDLER_RESULT_NOT_YET_HANDLED`.  For observers connected
before it: when no observer stops the emission, the class handler is the last
closure run and the result is `DBUS_HANDLER_RESULT_NOT_YET_HANDLED` whatever the
observers return; when an observer is the last closure run, it has stopped the
emission, the class handler has not run, and the result is
`DBUS_HANDLER_RESULT_HANDLED` exactly when that observer returned true. -/
theorem last_closure_decides {σ : Type} (klass : IBusProxyClass σ)
    (handlers : List (SignalHandler σ)) (fs : List (Callback σ)) (proxy : IBusProxy σ)
    (m : DBusMessage) (w : World) :
    ((ibus_proxy_handle_signal klass handlers proxy (some m) w).ret = DBUS_HANDLER_RESULT_HANDLED ↔
      ∃ c, (ibus_proxy_handle_signal klass handlers proxy (some m) w).trace.getLast? =
        some (c, true)) ∧
    ((ibus_proxy_handle_signal klass handlers proxy (some m) w).ret =
        DBUS_HANDLER_RESULT_NOT_YET_HANDLED ↔
      ¬ ∃ c, (ibus_proxy_handle_signal klass handlers proxy (some m) w).trace.getLast? =
        some (c, true)) ∧
    ((ibus_proxy_handle_signal (ibus_proxy_class_init σ) handlers proxy (some m) w).ran.getLast? =
        some ClosureId.class_handler →
      (ibus_proxy_handle_signal (ibus_proxy_class_init σ) handlers proxy (some m) w).ret =
        DBUS_HANDLER_RESULT_NOT_YET_HANDLED) ∧
    ((∀ f ∈ fs, (f proxy m).stop = false) →
      (ibus_proxy_handle_signal (ibus_proxy_class_init σ) (fs.map observer) proxy
          (some m) w).ran.getLast? = some ClosureId.class_handler ∧
      (ibus_proxy_handle_signal (ibus_proxy_class_init σ) (fs.map observer) proxy
          (some m) w).ret = DBUS_HANDLER_RESULT_NOT_YET_HANDLED) ∧
    (∀ (k : Nat) (b : Bool),
      (ibus_proxy_handle_signal (ibus_proxy_class_init σ) (fs.map observer) proxy
          (some m) w).trace.getLast? = some (ClosureId.handler k, b) →
      ClosureId.class_handler ∉
        (ibus_proxy_handle_signal (ibus_proxy_class_init σ) (fs.map observer) proxy
          (some m) w).ran ∧
      (∃ f ∈ fs, (f proxy m).stop = true ∧ (f proxy m).ret = b) ∧
      (ibus_proxy_handle_signal (ibus_proxy_class_init σ) (fs.map observer) proxy
          (some m) w).ret =
        if b then DBUS_HANDLER_RESULT_HANDLED else DBUS_HANDLER_RESULT_NOT_YET_HANDLED) := by
  refine ⟨?_, ?_, class_handler_last handlers proxy m w, ?_, ?_⟩
  · rw [handle_signal_ret]
    cases h : (ibus_proxy_handle_signal klass handlers proxy (some m) w).trace.getLast? with
    | none => simp [DBUS_HANDLER_RESULT_HANDLED, DBUS_HANDLER_RESULT_NOT_YET_HANDLED]
    | some e =>
      obtain ⟨c, b⟩ := e
      cases b <;> simp [DBUS_HANDLER_RESULT_HANDLED, DBUS_HANDLER_RESULT_NOT_YET_HANDLED]
  · rw [handle_signal_ret]
    cases h : (ibus_proxy_handle_signal klass handlers proxy (some m) w).trace.getLast? with
    | none => simp [DBUS_HANDLER_RESULT_HANDLED, DBUS_HANDLER_RESULT_NOT_YET_HANDLED]
    | some e =>
      obtain ⟨c, b⟩ := e
      cases b <;> simp [DBUS_HANDLER_RESULT_HANDLED, DBUS_HANDLER_RESULT_NOT_YET_HANDLED]
  · intro hfs
    have h := handle_signal_observers_no_stop fs proxy m w hfs
    refine ⟨?_, h.2⟩
    rw [h.1]
    simp [List.getLast?_append]
  · intro k b hk
    have h := observer_last fs proxy m w k b hk
    refine ⟨h.1, h.2, ?_⟩
    rw [handle_signal_ret, hk]
    simp

/-- Claim C1, at concrete inputs: with the class handler of `IBusProxy`, two
observers that do not stop the emission, the first returning true, give
`DBUS_HANDLER_RESULT_NOT_YET_HANDLED` after the class handler has run; an
observer that returns true and stops the emission, between two others, is the
last closure run and gives `DBUS_HANDLER_RESULT_HANDLED`, and the class handler
does not run. -/
theorem last_closure_decides_witness :
    ((ibus_proxy_handle_signal (ibus_proxy_class_init Unit)
          ([always_true, always_false].map observer) proxy0 (some 5) world0).ran.getLast? =
        some ClosureId.class_handler ∧
      (ibus_proxy_handle_signal (ibus_proxy_class_init Unit)
          ([always_true, always_false].map observer) proxy0 (some 5) world0).ret =
        DBUS_HANDLER_RESULT_NOT_YET_HANDLED) ∧
    ((∀ f ∈ [always_true, always_false], (f proxy0 5).stop = false) ∧
      (ibus_proxy_handle_signal (ibus_proxy_class_init Unit)
          ([always_true, always_false].map observer) proxy0 (some 5) world0).ran.getLast? =
        some ClosureId.class_handler ∧
      (ibus_proxy_handle_signal (ibus_proxy_class_init Unit)
          ([always_true, always_false].map observer) proxy0 (some 5) world0).ret =
        DBUS_HANDLER_RESULT_NOT_YET_HANDLED) ∧
    ((ibus_proxy_handle_signal (ibus_proxy_class_init Unit)
          ([always_false, stop_true, always_false].map observer) proxy0 (some 5)
          world0).trace.getLast? = some (ClosureId.handler 1, true) ∧
      ClosureId.class_handler ∉
        (ibus_proxy_handle_signal (ibus_proxy_class_init Unit)
          ([always_false, stop_true, always_false].map observer) proxy0 (some 5) world0).ran ∧
      (∃ f ∈ [always_false, stop_true, always_false],
        (f proxy0 5).stop = true ∧ (f proxy0 5).ret = true) ∧
      (ibus_proxy_handle_signal (ibus_proxy_class_init Unit)
          ([always_false, stop_true, always_false].map observer) proxy0 (some 5) world0).ret =
        if true then DBUS_HANDLER_RESULT_HANDLED else DBUS_HANDLER_RESULT_NOT_YET_HANDLED) :=
  ⟨⟨by decide,
    (last_closure_decides (ibus_proxy_class_init Unit)
      ([always_true, always_false].map observer) [] proxy0 5 world0).2.2.1 (by decide)⟩,
   ⟨by simp [always_true, always_false],
    (last_closure_decides (ibus_proxy_class_init Unit) [] [always_true, always_false] proxy0 5
      world0).2.2.2.1 (by simp [always_true, always_false])⟩,
   ⟨by decide,
    (last_closure_decides (ibus_proxy_class_init Unit) []
      [always_false, stop_true, always_false] proxy0 5 world0).2.2.2.2 1 true (by decide)⟩⟩

/-- Claim C2: for every proxy with no handler connected and every message that
is not `NULL`, `ibus_proxy_handle_signal` returns
`DBUS_HANDLER_RESULT_NOT_YET_HANDLED`; the emission runs the class handler
`ibus_proxy_dbus_signal` and nothing else, and that handler returns false for
every proxy and message. -/
theorem no_observer_not_handled {σ : Type} (proxy : IBusProxy σ) (m : DBusMessage) (w : World) :
    (ibus_proxy_handle_signal (ibus_proxy_class_init σ) [] proxy (some m) w).ret =
        DBUS_HANDLER_RESULT_NOT_YET_HANDLED ∧
    (ibus_proxy_handle_signal (ibus_proxy_class_init σ) [] proxy (some m) w).ran =
        [ClosureId.class_handler] ∧
    (∀ (q : IBusProxy σ) (k : DBusMessage), ibus_proxy_dbus_signal q k = false) := by
  refine ⟨rfl, rfl, fun _ _ => rfl⟩

/-- Claim C3, counterexample: on a `NULL` message the value returned is
`DBUS_HANDLER_RESULT_HANDLED`, the value of a handled message, so the outcome
is not distinct from Handled. -/
theorem null_message_gets_handled_value :
    (ibus_proxy_handle_signal (ibus_proxy_class_init Unit) [observer always_true] proxy0
        none world0).ret = DBUS_HANDLER_RESULT_HANDLED := by
  decide

/-- Claim C3, amended: for every proxy, class and list of connected handlers,
`ibus_proxy_handle_signal` on a `NULL` message logs one critical message and
returns `FALSE`; `g_signal_emit` is not called and no handler runs. -/
theorem null_message_returns_false {σ : Type} (klass : IBusProxyClass σ)
    (handlers : List (SignalHandler σ)) (proxy : IBusProxy σ) (w : World) :
    (ibus_proxy_handle_signal klass handlers proxy none w).ret = FALSE ∧
    (ibus_proxy_handle_signal klass handlers proxy none w).emitted = false ∧
    (ibus_proxy_handle_signal klass handlers proxy none w).ran = [] ∧
    (ibus_proxy_handle_signal klass handlers proxy none w).world = g_critical w := by
  refine ⟨rfl, rfl, rfl, rfl⟩

/-- Claim C10: whenever the emission for a message returns true,
`ibus_proxy_handle_signal` returns for that message the integer it returns for
a `NULL` message: both are 0, which is `FALSE` and
`DBUS_HANDLER_RESULT_HANDLED`, and differs from
`DBUS_HANDLER_RESULT_NOT_YET_HANDLED`. -/
theorem rejection_reads_as_handled {σ : Type} (klass : IBusProxyClass σ)
    (handlers : List (SignalHandler σ)) (proxy : IBusProxy σ) (m : DBusMessage) (w : World)
    (h : (g_signal_emit dbus_signal_node klass.dbus_signal handlers proxy m).1 = true) :
    (ibus_proxy_handle_signal klass handlers proxy (some m) w).ret =
        (ibus_proxy_handle_signal klass handlers proxy none w).ret ∧
    (ibus_proxy_handle_signal klass handlers proxy none w).ret = 0 ∧
    (ibus_proxy_handle_signal klass handlers proxy (some m) w).ret = DBUS_HANDLER_RESULT_HANDLED ∧
    (ibus_proxy_handle_signal klass handlers proxy none w).emitted = false ∧
    (ibus_proxy_handle_signal klass handlers proxy (some m) w).emitted = true ∧
    DBUS_HANDLER_RESULT_HANDLED = FALSE ∧
    DBUS_HANDLER_RESULT_NOT_YET_HANDLED = 1 := by
  simp [ibus_proxy_handle_signal, h, FALSE, DBUS_HANDLER_RESULT_HANDLED,
    DBUS_HANDLER_RESULT_NOT_YET_HANDLED]

/-- Claim C10, at a concrete input: a handler connected with
`g_signal_connect_after` that returns true makes the emission return true, and
the caller gets 0 for the message as for a `NULL` message. -/
theorem rejection_reads_as_handled_witness :
    (g_signal_emit dbus_signal_node (ibus_proxy_class_init Unit).dbus_signal
        [{ after := true, callback := always_true }] proxy0 5).1 = true ∧
    ((ibus_proxy_handle_signal (ibus_proxy_class_init Unit)
        [{ after := true, callback := always_true }] proxy0 (some 5) world0).ret =
      (ibus_proxy_handle_signal (ibus_proxy_class_init Unit)
        [{ after := true, callback := always_true }] proxy0 none world0).ret ∧
    (ibus_proxy_handle_signal (ibus_proxy_class_init Unit)
        [{ after := true, callback := always_true }] proxy0 none world0).ret = 0 ∧
    (ibus_proxy_handle_signal (ibus_proxy_class_init Unit)
        [{ after := true, callback := always_true }] proxy0 (some 5) world0).ret =
      DBUS_HANDLER_RESULT_HANDLED ∧
    (ibus_proxy_handle_signal (ibus_proxy_class_init Unit)
        [{ after := true, callback := always_true }] proxy0 none world0).emitted = false ∧
    (ibus_proxy_handle_signal (ibus_proxy_class_init Unit)
        [{ after := true, callback := always_true }] proxy0 (some 5) world0).emitted = true ∧
    DBUS_HANDLER_RESULT_HANDLED = FALSE ∧
    DBUS_HANDLER_RESULT_NOT_YET_HANDLED = 1) :=
  ⟨by decide, rejection_reads_as_handled (ibus_proxy_class_init Unit)
    [{ after := true, callback := always_true }] proxy0 5 world0 (by decide)⟩

/-! ## Construction and the accessors -/

/-- Claim C4: for every name and path that are not `NULL` (every non-empty name
and path among them) and every live connection `c`, `ibus_proxy_new` returns a
proxy, and `ibus_proxy_get_property` on it fills a string value with the name
for `PROP_NAME`, a string value with the path for `PROP_PATH`, and an object
value with `c` for `PROP_CONNECTION`. -/
theorem new_then_get_property {σ : Type} (parent_class : IBusObjectClass σ) (name path : String)
    (c : Nat) (w : World) (hc : IBUS_IS_CONNECTION (some c) w = true) :
    ∃ (proxy : IBusProxy σ) (w1 : World),
      ibus_proxy_new parent_class (some name) (some path) (some c) w = Outcome.ok (proxy, w1) ∧
      (∀ (old : Option String) (v : World),
        (ibus_proxy_get_property proxy PROP_NAME (GValue.string old) v).1 =
          GValue.string (some name)) ∧
      (∀ (old : Option String) (v : World),
        (ibus_proxy_get_property proxy PROP_PATH (GValue.string old) v).1 =
          GValue.string (some path)) ∧
      (∀ (old : Option Nat) (v : World),
        (ibus_proxy_get_property proxy PROP_CONNECTION (GValue.object old) v).1 =
          GValue.object (some c)) := by
  refine ⟨_, _, ibus_proxy_new_ok parent_class name path c w hc, ?_, ?_, ?_⟩
  · intro old v
    simp [ibus_proxy_get_property, g_value_set_string, g_strdup]
  · intro old v
    simp [ibus_proxy_get_property, g_value_set_string, g_strdup, PROP_NAME, PROP_PATH]
  · intro old v
    simp [ibus_proxy_get_property, g_value_set_object, PROP_NAME, PROP_PATH, PROP_CONNECTION]

/-- Claim C4, at a concrete input: the example of the specification. -/
theorem new_then_get_property_witness :
    IBUS_IS_CONNECTION (some 7) world0 = true ∧
    ∃ (proxy : IBusProxy Unit) (w1 : World),
      ibus_proxy_new unit_parent (some "com.example.Service") (some "/com/example/Object")
        (some 7) world0 = Outcome.ok (proxy, w1) ∧
      (∀ (old : Option String) (v : World),
        (ibus_proxy_get_property proxy PROP_NAME (GValue.string old) v).1 =
          GValue.string (some "com.example.Service")) ∧
      (∀ (old : Option String) (v : World),
        (ibus_proxy_get_property proxy PROP_PATH (GValue.string old) v).1 =
          GValue.string (some "/com/example/Object")) ∧
      (∀ (old : Option Nat) (v : World),
        (ibus_proxy_get_property proxy PROP_CONNECTION (GValue.object old) v).1 =
          GValue.object (some 7)) :=
  ⟨by decide, new_then_get_property unit_parent "com.example.Service" "/com/example/Object" 7
    world0 (by decide)⟩

/-- Claim C5, counterexample: with the empty string for the name (and for the
path) and a live connection, `ibus_proxy_new` returns a proxy whose name (and
path) is the empty string. -/
theorem new_accepts_empty_strings :
    ibus_proxy_new unit_parent (some "") (some "/com/example/Object") (some 7) world0 =
      Outcome.ok
        ({ parent := (),
           priv := { name := some "", path := some "/com/example/Object",
                     connection := some 7 } }, world1) ∧
    (ibus_proxy_new unit_parent (some "") (some "/com/example/Object") (some 7) world0).isOk =
      true ∧
    (ibus_proxy_new unit_parent (some "com.example.Service") (some "") (some 7) world0).isOk =
      true := by
  refine ⟨rfl, rfl, rfl⟩

/-- Claim C5, amended: `ibus_proxy_new` fails to return a proxy exactly when the
name is `NULL`, or the path is `NULL`, or the connection is `NULL` or not a live
connection object; it then aborts on the assertion of line 102, 103 or 104.  An
empty name or path is accepted. -/
theorem new_aborts_iff {σ : Type} (parent_class : IBusObjectClass σ) (name path : Option String)
    (connection : Option Nat) (w : World) :
    ((ibus_proxy_new parent_class name path connection w).isOk = false ↔
      (name = none ∨ path = none ∨ IBUS_IS_CONNECTION connection w = false)) ∧
    ((ibus_proxy_new parent_class name path connection w).isOk = false ↔
      (ibus_proxy_new parent_class name path connection w = Outcome.abort 102 ∨
       ibus_proxy_new parent_class name path connection w = Outcome.abort 103 ∨
       ibus_proxy_new parent_class name path connection w = Outcome.abort 104)) := by
  cases name with
  | none => simp [ibus_proxy_new, Outcome.isOk]
  | some n =>
    cases path with
    | none => simp [ibus_proxy_new, Outcome.isOk]
    | some q =>
      cases hc : IBUS_IS_CONNECTION connection w with
      | false => simp [ibus_proxy_new, Outcome.isOk, hc]
      | true =>
        cases connection with
        | none => simp [IBUS_IS_CONNECTION] at hc
        | some c => simp [ibus_proxy_new_ok parent_class n q c w hc, Outcome.isOk]

/-! ## Destruction -/

/-- Claim C6: for every proxy, a second `ibus_proxy_destroy` returns and leaves
the private record (name, path, connection), every reference count and the
number of live strings as the first call left them; what it adds is one
critical message, from `g_object_unref` on `NULL`.  For a live proxy (name,
path and connection set, the connection a live object, the two strings live
buffers) the first call clears the three fields, drops exactly one reference
on the connection and none on any other object, and frees exactly the two
strings, without a critical message; after the second call the connection has
still lost exactly one reference and exactly two strings have been freed. -/
theorem destroy_twice {σ : Type} (parent_class : IBusObjectClass σ) (proxy : IBusProxy σ)
    (w : World) :
    (ibus_proxy_destroy parent_class (ibus_proxy_destroy parent_class proxy w).1
        (ibus_proxy_destroy parent_class proxy w).2).1.priv =
      (ibus_proxy_destroy parent_class proxy w).1.priv ∧
    (ibus_proxy_destroy parent_class (ibus_proxy_destroy parent_class proxy w).1
        (ibus_proxy_destroy parent_class proxy w).2).2.ref_count =
      (ibus_proxy_destroy parent_class proxy w).2.ref_count ∧
    (ibus_proxy_destroy parent_class (ibus_proxy_destroy parent_class proxy w).1
        (ibus_proxy_destroy parent_class proxy w).2).2.strings =
      (ibus_proxy_destroy parent_class proxy w).2.strings ∧
    (ibus_proxy_destroy parent_class (ibus_proxy_destroy parent_class proxy w).1
        (ibus_proxy_destroy parent_class proxy w).2).2 =
      g_critical (ibus_proxy_destroy parent_class proxy w).2 ∧
    (∀ (n p : String) (c : Nat),
      proxy.priv = { name := some n, path := some p, connection := some c } →
      IBUS_IS_CONNECTION (some c) w = true → 2 ≤ w.strings →
      (ibus_proxy_destroy parent_class proxy w).1.priv =
        { name := none, path := none, connection := none } ∧
      (ibus_proxy_destroy parent_class proxy w).2.ref_count c + 1 = w.ref_count c ∧
      (∀ a, a ≠ c → (ibus_proxy_destroy parent_class proxy w).2.ref_count a = w.ref_count a) ∧
      (ibus_proxy_destroy parent_class proxy w).2.strings + 2 = w.strings ∧
      (ibus_proxy_destroy parent_class proxy w).2.criticals = w.criticals ∧
      (ibus_proxy_destroy parent_class (ibus_proxy_destroy parent_class proxy w).1
          (ibus_proxy_destroy parent_class proxy w).2).2.ref_count c + 1 = w.ref_count c ∧
      (ibus_proxy_destroy parent_class (ibus_proxy_destroy parent_class proxy w).1
          (ibus_proxy_destroy parent_class proxy w).2).2.strings + 2 = w.strings) := by
  refine ⟨rfl, rfl, rfl, rfl, ?_⟩
  intro n p c hp hc hs
  have h0 : w.ref_count c ≠ 0 := by
    simp [IBUS_IS_CONNECTION] at hc
    omega
  have h1 : w.ref_count c - 1 + 1 = w.ref_count c := by omega
  have h2 : w.strings - 1 - 1 + 2 = w.strings := by omega
  refine ⟨rfl, ?_, ?_, ?_, ?_, ?_, ?_⟩
  · simp [ibus_proxy_destroy, hp, g_free, g_object_unref, h0, h1]
  · intro a ha
    simp [ibus_proxy_destroy, hp, g_free, g_object_unref, h0, ha]
  · simp [ibus_proxy_destroy, hp, g_free, g_object_unref, h0, h2]
  · simp [ibus_proxy_destroy, hp, g_free, g_object_unref, h0]
  · simp [ibus_proxy_destroy, hp, g_free, g_object_unref, g_critical, h0, h1]
  · simp [ibus_proxy_destroy, hp, g_free, g_object_unref, g_critical, h0, h2]

/-- Claim C6, at a concrete input: the proxy `proxy0` over the connection at
address 7 in `world1`, where the connection is held twice and two strings are
live; after the first call, and after the second, the connection is held once
and no string is live. -/
theorem destroy_twice_witness :
    proxy0.priv = { name := some "com.example.Service", path := some "/com/example/Object",
                    connection := some 7 } ∧
    IBUS_IS_CONNECTION (some 7) world1 = true ∧ 2 ≤ world1.strings ∧
    ((ibus_proxy_destroy unit_parent proxy0 world1).1.priv =
        { name := none, path := none, connection := none } ∧
      (ibus_proxy_destroy unit_parent proxy0 world1).2.ref_count 7 + 1 = world1.ref_count 7 ∧
      (∀ a, a ≠ 7 → (ibus_proxy_destroy unit_parent proxy0 world1).2.ref_count a =
        world1.ref_count a) ∧
      (ibus_proxy_destroy unit_parent proxy0 world1).2.strings + 2 = world1.strings ∧
      (ibus_proxy_destroy unit_parent proxy0 world1).2.criticals = world1.criticals ∧
      (ibus_proxy_destroy unit_parent (ibus_proxy_destroy unit_parent proxy0 world1).1
          (ibus_proxy_destroy unit_parent proxy0 world1).2).2.ref_count 7 + 1 =
        world1.ref_count 7 ∧
      (ibus_proxy_destroy unit_parent (ibus_proxy_destroy unit_parent proxy0 world1).1
          (ibus_proxy_destroy unit_parent proxy0 world1).2).2.strings + 2 = world1.strings) :=
  ⟨rfl, by decide, by decide,
    (destroy_twice unit_parent proxy0 world1).2.2.2.2 "com.example.Service"
      "/com/example/Object" 7 rfl (by decide) (by decide)⟩

/-- Claim C8: for every live connection `c` and every proxy built over it by
`ibus_proxy_new`, construction raises the reference count of `c` by exactly
one, and `ibus_proxy_destroy` on that proxy leaves name, path and connection
`NULL` and the reference count of `c` at its value before construction; every
other reference count and the number of live strings are back at their values
too. -/
theorem new_then_destroy {σ : Type} (parent_class : IBusObjectClass σ) (name path : String)
    (c r : Nat) (w : World) (hr : w.ref_count c = r)
    (hc : IBUS_IS_CONNECTION (some c) w = true) :
    ∃ (proxy : IBusProxy σ) (w1 : World),
      ibus_proxy_new parent_class (some name) (some path) (some c) w = Outcome.ok (proxy, w1) ∧
      w1.ref_count c = r + 1 ∧
      (ibus_proxy_destroy parent_class proxy w1).1.priv =
        { name := none, path := none, connection := none } ∧
      (ibus_proxy_destroy parent_class proxy w1).2.ref_count c = r ∧
      (ibus_proxy_destroy parent_class proxy w1).2.ref_count = w.ref_count ∧
      (ibus_proxy_destroy parent_class proxy w1).2.strings = w.strings ∧
      (ibus_proxy_destroy parent_class proxy w1).2.criticals = w.criticals := by
  refine ⟨_, _, ibus_proxy_new_ok parent_class name path c w hc, ?_, rfl, ?_, ?_, ?_, ?_⟩
  · simp [hr]
  · simp [ibus_proxy_destroy, g_free, g_object_unref, hr]
  · funext x
    by_cases hx : x = c
    · simp [ibus_proxy_destroy, g_free, g_object_unref, hx]
    · simp [ibus_proxy_destroy, g_free, g_object_unref, hx]
  · simp [ibus_proxy_destroy, g_free, g_object_unref]
  · simp [ibus_proxy_destroy, g_free, g_object_unref]

/-- Claim C8, at a concrete input: the connection at address 7 of `world0`,
held once. -/
theorem new_then_destroy_witness :
    world0.ref_count 7 = 1 ∧ IBUS_IS_CONNECTION (some 7) world0 = true ∧
    ∃ (proxy : IBusProxy Unit) (w1 : World),
      ibus_proxy_new unit_parent (some "com.example.Service") (some "/com/example/Object")
        (some 7) world0 = Outcome.ok (proxy, w1) ∧
      w1.ref_count 7 = 1 + 1 ∧
      (ibus_proxy_destroy unit_parent proxy w1).1.priv =
        { name := none, path := none, connection := none } ∧
      (ibus_proxy_destroy unit_parent proxy w1).2.ref_count 7 = 1 ∧
      (ibus_proxy_destroy unit_parent proxy w1).2.ref_count = world0.ref_count ∧
      (ibus_proxy_destroy unit_parent proxy w1).2.strings = world0.strings ∧
      (ibus_proxy_destroy unit_parent proxy w1).2.criticals = world0.criticals :=
  ⟨by decide, by decide, new_then_destroy unit_parent "com.example.Service"
    "/com/example/Object" 7 1 world0 (by decide) (by decide)⟩

/-- Claim C7, counterexample: a proxy is constructed and destroyed, and
`ibus_proxy_handle_signal` on it with a message then emits the signal and
returns `DBUS_HANDLER_RESULT_NOT_YET_HANDLED`, as on a live proxy. -/
theorem destroyed_proxy_still_dispatches :
    ibus_proxy_new unit_parent (some "com.example.Service") (some "/com/example/Object")
      (some 7) world0 = Outcome.ok (proxy0, world1) ∧
    (ibus_proxy_destroy unit_parent proxy0 world1).1.priv = destroyed0.priv ∧
    (ibus_proxy_handle_signal (ibus_proxy_class_init Unit) []
        (ibus_proxy_destroy unit_parent proxy0 world1).1 (some 5)
        (ibus_proxy_destroy unit_parent proxy0 world1).2).ret =
      DBUS_HANDLER_RESULT_NOT_YET_HANDLED ∧
    (ibus_proxy_handle_signal (ibus_proxy_class_init Unit) []
        (ibus_proxy_destroy unit_parent proxy0 world1).1 (some 5)
        (ibus_proxy_destroy unit_parent proxy0 world1).2).emitted = true ∧
    (ibus_proxy_handle_signal (ibus_proxy_class_init Unit) []
        (ibus_proxy_destroy unit_parent proxy0 world1).1 (some 5)
        (ibus_proxy_destroy unit_parent proxy0 world1).2).ran = [ClosureId.class_handler] := by
  refine ⟨rfl, rfl, rfl, rfl, rfl⟩

/-- Claim C7, amended: `ibus_proxy_handle_signal` has no check for a destroyed
proxy.  On every proxy on which `ibus_proxy_destroy` has been called it runs as
on a live one: for a message it emits the signal and returns
`DBUS_HANDLER_RESULT_HANDLED` or `DBUS_HANDLER_RESULT_NOT_YET_HANDLED`, the
latter whenever the class handler of `IBusProxy` is the last closure the
emission ran; for a `NULL` message it returns `FALSE` without emitting. -/
theorem dispatch_after_destroy {σ : Type} (parent_class : IBusObjectClass σ)
    (klass : IBusProxyClass σ) (handlers : List (SignalHandler σ))
    (proxy : IBusProxy σ) (m : DBusMessage) (w : World) :
    (ibus_proxy_handle_signal klass handlers (ibus_proxy_destroy parent_class proxy w).1 (some m)
        (ibus_proxy_destroy parent_class proxy w).2).emitted = true ∧
    ((ibus_proxy_handle_signal klass handlers (ibus_proxy_destroy parent_class proxy w).1 (some m)
        (ibus_proxy_destroy parent_class proxy w).2).ret = DBUS_HANDLER_RESULT_HANDLED ∨
     (ibus_proxy_handle_signal klass handlers (ibus_proxy_destroy parent_class proxy w).1 (some m)
        (ibus_proxy_destroy parent_class proxy w).2).ret = DBUS_HANDLER_RESULT_NOT_YET_HANDLED) ∧
    ((ibus_proxy_handle_signal (ibus_proxy_class_init σ) handlers
        (ibus_proxy_destroy parent_class proxy w).1 (some m)
        (ibus_proxy_destroy parent_class proxy w).2).ran.getLast? = some ClosureId.class_handler →
      (ibus_proxy_handle_signal (ibus_proxy_class_init σ) handlers
        (ibus_proxy_destroy parent_class proxy w).1 (some m)
        (ibus_proxy_destroy parent_class proxy w).2).ret = DBUS_HANDLER_RESULT_NOT_YET_HANDLED) ∧
    (ibus_proxy_handle_signal klass handlers (ibus_proxy_destroy parent_class proxy w).1 none
        (ibus_proxy_destroy parent_class proxy w).2).ret = FALSE ∧
    (ibus_proxy_handle_signal klass handlers (ibus_proxy_destroy parent_class proxy w).1 none
        (ibus_proxy_destroy parent_class proxy w).2).emitted = false := by
  refine ⟨rfl, ?_, class_handler_last handlers _ m _, rfl, rfl⟩
  rw [handle_signal_ret]
  split
  · exact Or.inl rfl
  · exact Or.inr rfl

/-- Claim C7, at a concrete input: on the destroyed `proxy0`, with an observer
that returns true without stopping the emission, the class handler is the last
closure to run and the result is `DBUS_HANDLER_RESULT_NOT_YET_HANDLED`. -/
theorem dispatch_after_destroy_witness :
    (ibus_proxy_handle_signal (ibus_proxy_class_init Unit) [observer always_true]
        (ibus_proxy_destroy unit_parent proxy0 world1).1 (some 5)
        (ibus_proxy_destroy unit_parent proxy0 world1).2).ran.getLast? =
      some ClosureId.class_handler ∧
    (ibus_proxy_handle_signal (ibus_proxy_class_init Unit) [observer always_true]
        (ibus_proxy_destroy unit_parent proxy0 world1).1 (some 5)
        (ibus_proxy_destroy unit_parent proxy0 world1).2).ret =
      DBUS_HANDLER_RESULT_NOT_YET_HANDLED :=
  ⟨by decide,
    (dispatch_after_destroy unit_parent (ibus_proxy_class_init Unit) [observer always_true]
      proxy0 5 world1).2.2.1 (by decide)⟩

/-! ## Construct-only fields -/

/-- Claim C9: in every state reached from a proxy returned by `ibus_proxy_new`
by a sequence of `ibus_proxy_set_property` and `ibus_proxy_handle_signal` calls
that returns, name, path and connection are the values given at construction;
and in such a state `ibus_proxy_set_property` for `PROP_NAME`, `PROP_PATH` or
`PROP_CONNECTION` aborts on its assertion (line 228, 232 or 236), whatever the
value, instead of storing it. -/
theorem construct_only_fields {σ : Type} (parent_class : IBusObjectClass σ)
    (name path : Option String) (connection : Option Nat) (w : World) (calls : List (Call σ))
    (p0 p1 : IBusProxy σ) (w0 w1 : World)
    (hnew : ibus_proxy_new parent_class name path connection w = Outcome.ok (p0, w0))
    (hrun : run_calls calls (p0, w0) = Outcome.ok (p1, w1)) :
    p1.priv.name = name ∧ p1.priv.path = path ∧ p1.priv.connection = connection ∧
    (∀ (value : GValue), ibus_proxy_set_property p1 PROP_NAME value w1 = Outcome.abort 228) ∧
    (∀ (value : GValue), ibus_proxy_set_property p1 PROP_PATH value w1 = Outcome.abort 232) ∧
    (∀ (value : GValue),
      ibus_proxy_set_property p1 PROP_CONNECTION value w1 = Outcome.abort 236) := by
  cases name with
  | none => simp [ibus_proxy_new] at hnew
  | some n =>
    cases path with
    | none => simp [ibus_proxy_new] at hnew
    | some q =>
      cases hc : IBUS_IS_CONNECTION connection w with
      | false => simp [ibus_proxy_new, hc] at hnew
      | true =>
        cases connection with
        | none => simp [IBUS_IS_CONNECTION] at hc
        | some c =>
          rw [ibus_proxy_new_ok parent_class n q c w hc] at hnew
          cases hnew
          have hp := run_calls_keeps_priv calls _ (p1, w1) (by simp) (by simp) (by simp) hrun
          simp only at hp
          simp [hp, ibus_proxy_set_property, PROP_NAME, PROP_PATH, PROP_CONNECTION]

/-- Claim C9, at a concrete input: after construction, a dispatch, a write to an
unknown property and a dispatch of `NULL`, the three fields are those given. -/
theorem construct_only_fields_witness :
    ibus_proxy_new unit_parent (some "com.example.Service") (some "/com/example/Object")
      (some 7) world0 = Outcome.ok (proxy0, world1) ∧
    run_calls
      [Call.handle_signal (ibus_proxy_class_init Unit) [observer always_true] (some 5),
       Call.set_property 4 (GValue.string (some "other")),
       Call.handle_signal (ibus_proxy_class_init Unit) [observer always_true] none]
      (proxy0, world1) = Outcome.ok (proxy0, world2) ∧
    (proxy0.priv.name = some "com.example.Service" ∧
     proxy0.priv.path = some "/com/example/Object" ∧
     proxy0.priv.connection = some 7 ∧
     (∀ (value : GValue),
       ibus_proxy_set_property proxy0 PROP_NAME value world2 = Outcome.abort 228) ∧
     (∀ (value : GValue),
       ibus_proxy_set_property proxy0 PROP_PATH value world2 = Outcome.abort 232) ∧
     (∀ (value : GValue),
       ibus_proxy_set_property proxy0 PROP_CONNECTION value world2 = Outcome.abort 236)) :=
  ⟨rfl, rfl, construct_only_fields unit_parent (some "com.example.Service")
    (some "/com/example/Object") (some 7) world0
    [Call.handle_signal (ibus_proxy_class_init Unit) [observer always_true] (some 5),
     Call.set_property 4 (GValue.string (some "other")),
     Call.handle_signal (ibus_proxy_class_init Unit) [observer always_true] none]
    proxy0 proxy0 world1 world2 rfl rfl⟩

end Ibus
